import Mathlib

/-!
Verification of the py-webodm client library (src/pywebodm/api.py and
src/pywebodm/utils.py) against its natural-language specification.

The Python code is shallowly embedded: JSON values become an inductive
type `Json`, Python dictionaries become association lists with unique
keys, fallible Python expressions become `Except PyErr` computations,
and the catching of exceptions (`try ... except`) becomes a `match` on
the `Except` result.  Numeric JSON values are modelled as rationals
(`Rat`); Python `float` strings are modelled for finite decimal
literals (the special forms "inf"/"nan" and hexadecimal floats never
arise in any theorem below and are outside the model).
-/

/-- A JSON value, as produced by `res.json()` in the Python client.
Object fields are an association list with distinct keys, in insertion
order, mirroring a Python `dict` parsed from JSON. -/
inductive Json where
  | null
  | bool (b : Bool)
  | num (q : Rat)
  | str (s : String)
  | arr (elems : List Json)
  | obj (fields : List (String × Json))

mutual

/-- Structural equality of JSON values, modelling Python `==` on the
values the client handles.  (Python's cross-type numeric equalities
such as `1 == True` never arise in the theorems below; booleans and
numbers are kept distinct.) -/
def Json.beq : Json → Json → Bool
  | Json.null, Json.null => true
  | Json.bool a, Json.bool b => a == b
  | Json.num a, Json.num b => a == b
  | Json.str a, Json.str b => a == b
  | Json.arr xs, Json.arr ys => Json.beqList xs ys
  | Json.obj xs, Json.obj ys => Json.beqFields xs ys
  | _, _ => false

/-- Elementwise equality of JSON lists. -/
def Json.beqList : List Json → List Json → Bool
  | [], [] => true
  | x :: xs, y :: ys => Json.beq x y && Json.beqList xs ys
  | _, _ => false

/-- Elementwise equality of JSON object field lists. -/
def Json.beqFields : List (String × Json) → List (String × Json) → Bool
  | [], [] => true
  | (k1, v1) :: xs, (k2, v2) :: ys => k1 == k2 && Json.beq v1 v2 && Json.beqFields xs ys
  | _, _ => false

end

/-- The Python exceptions that the embedded code can raise. -/
inductive PyErr where
  | typeError
  | valueError
  | keyError (k : String)
  | attributeError
deriving DecidableEq

/-- First-occurrence lookup in an association list, i.e. `d[k]` /
`d.get(k)` on a Python dict with string keys. -/
def jsonLookup : List (String × Json) → String → Option Json
  | [], _ => none
  | (k, v) :: rest, key => if k = key then some v else jsonLookup rest key

/-- Python `d.get(key, default)` on a dict with string keys. -/
def dictGet (d : List (String × Json)) (k : String) (default : Json) : Json :=
  (jsonLookup d k).getD default

/-- Python `d[key]` on a dict with string keys: `KeyError` when the key
is absent. -/
def pyIndex (d : List (String × Json)) (k : String) : Except PyErr Json :=
  match jsonLookup d k with
  | some v => Except.ok v
  | none => Except.error (PyErr.keyError k)

/-- Python subscript `v[key]` with a string key, on an arbitrary JSON
value: dict lookup on objects (`KeyError` when absent), `TypeError` on
every other value (lists and strings demand integer indices, numbers,
booleans and `None` are not subscriptable). -/
def pySubscriptStr : Json → String → Except PyErr Json
  | Json.obj fields, k =>
      match jsonLookup fields k with
      | some v => Except.ok v
      | none => Except.error (PyErr.keyError k)
  | _, _ => Except.error PyErr.typeError

/-- Python truthiness of a JSON value (`bool(v)`). -/
def pyTruthy : Json → Bool
  | Json.null => false
  | Json.bool b => b
  | Json.num q => q ≠ 0
  | Json.str s => s ≠ ""
  | Json.arr xs => ¬ xs.isEmpty
  | Json.obj fields => ¬ fields.isEmpty

/-- Python iteration `for i in v`: lists yield their elements, dicts
their keys, strings their characters; other values raise `TypeError`. -/
def pyIterate : Json → Except PyErr (List Json)
  | Json.arr xs => Except.ok xs
  | Json.obj fields => Except.ok (fields.map (fun kv => Json.str kv.1))
  | Json.str s => Except.ok (s.toList.map (fun c => Json.str (String.mk [c])))
  | _ => Except.error PyErr.typeError

/-- Python `len(v)`: defined for lists, strings and dicts, `TypeError`
otherwise. -/
def pyLen : Json → Except PyErr Nat
  | Json.arr xs => Except.ok xs.length
  | Json.str s => Except.ok s.length
  | Json.obj fields => Except.ok fields.length
  | _ => Except.error PyErr.typeError

/-- Whether the character list `l` begins with `sub`. -/
def listStartsWith : List Char → List Char → Bool
  | _, [] => true
  | [], _ :: _ => false
  | a :: as, b :: bs => a = b && listStartsWith as bs

/-- Whether `sub` occurs contiguously inside `l` (Python substring
containment). -/
def strContainsSub (l sub : List Char) : Bool :=
  match l with
  | [] => sub.isEmpty
  | _ :: rest => listStartsWith l sub || strContainsSub rest sub

/-- Python membership `x in v`: element equality for lists, key
membership for dicts, substring test for strings (where `x` must itself
be a string), `TypeError` otherwise. -/
def pyContains (container x : Json) : Except PyErr Bool :=
  match container with
  | Json.arr xs => Except.ok (xs.any (fun e => Json.beq e x))
  | Json.obj fields => Except.ok (fields.any (fun kv => Json.beq (Json.str kv.1) x))
  | Json.str s =>
      match x with
      | Json.str sub => Except.ok (strContainsSub s.toList sub.toList)
      | _ => Except.error PyErr.typeError
  | _ => Except.error PyErr.typeError

/-- Python `v.get(key)` seen as a method of `v`: an `Option`-valued
lookup when `v` is a dict, `AttributeError` when `v` is any other value
(only dicts have a `get` method). -/
def pyGetMethod : Json → String → Except PyErr (Option Json)
  | Json.obj fields, k => Except.ok (jsonLookup fields k)
  | _, _ => Except.error PyErr.attributeError

/-- Python `v.get(key, default)` seen as a method of `v`. -/
def pyGetMethodD (v : Json) (k : String) (default : Json) : Except PyErr Json :=
  match v with
  | Json.obj fields => Except.ok ((jsonLookup fields k).getD default)
  | _ => Except.error PyErr.attributeError

/-- Insertion into a Python dict whose keys are arbitrary (hashable)
values: an existing key keeps its position and gets the new value, a
fresh key is appended.  Key comparison is structural equality on `Json`
(the cross-type numeric equalities of Python `==`, such as `1 == True`,
never arise in the theorems below). -/
def pyDictInsert : List (Json × Json) → Json → Json → List (Json × Json)
  | [], k, v => [(k, v)]
  | (k0, v0) :: rest, k, v =>
      if Json.beq k0 k then (k0, v) :: rest else (k0, v0) :: pyDictInsert rest k v

/-- Lookup in a Python dict with arbitrary keys. -/
def pyDictLookup : List (Json × Json) → Json → Option Json
  | [], _ => none
  | (k, v) :: rest, key => if Json.beq k key then some v else pyDictLookup rest key

/-- utils.odmpreset_to_dict, inner loop: builds the comprehension
dict from the already-obtained iteration items, evaluating the key
expression i\x5b"name"\x5d before the value expression i\x5b"value"\x5d. -/
def odmStep (acc : List (Json × Json)) (i : Json) : Except PyErr (List (Json × Json)) := do
  let n ← pySubscriptStr i "name"
  let v ← pySubscriptStr i "value"
  pure (pyDictInsert acc n v)

/-- utils.odmpreset_to_dict, comprehension loop over the iteration
items. -/
def odmItems (items : List Json) : Except PyErr (List (Json × Json)) :=
  items.foldlM odmStep []

/-- utils.odmpreset_to_dict: the dict comprehension mapping each
record's "name" field to its "value" field, over the Python iteration
of the argument. -/
def odmpresetToDict (l : Json) : Except PyErr (List (Json × Json)) := do
  odmItems (← pyIterate l)

/-- api.TaskStatus: the task status enumeration. -/
inductive TaskStatus where
  | UNKNOWN
  | QUEUED
  | RUNNING
  | FAILED
  | COMPLETED
  | CANCELED
deriving DecidableEq

/-- The integer code of each api.TaskStatus member. -/
def TaskStatus.code : TaskStatus → Nat
  | TaskStatus.UNKNOWN => 0
  | TaskStatus.QUEUED => 10
  | TaskStatus.RUNNING => 20
  | TaskStatus.FAILED => 30
  | TaskStatus.COMPLETED => 40
  | TaskStatus.CANCELED => 50

/-- The Python enum call `TaskStatus(value)`: a known numeric code
yields the matching member; `False` equals the code `0` under Python
`==`/hash and yields UNKNOWN; every other value raises (`ValueError`
for hashable non-member values, `TypeError` for unhashable lists and
dicts). -/
def taskStatusOfValue : Json → Except PyErr TaskStatus
  | Json.num q =>
      if q = 0 then Except.ok TaskStatus.UNKNOWN
      else if q = 10 then Except.ok TaskStatus.QUEUED
      else if q = 20 then Except.ok TaskStatus.RUNNING
      else if q = 30 then Except.ok TaskStatus.FAILED
      else if q = 40 then Except.ok TaskStatus.COMPLETED
      else if q = 50 then Except.ok TaskStatus.CANCELED
      else Except.error PyErr.valueError
  | Json.bool b => if b then Except.error PyErr.valueError else Except.ok TaskStatus.UNKNOWN
  | Json.null => Except.error PyErr.valueError
  | Json.str _ => Except.error PyErr.valueError
  | Json.arr _ => Except.error PyErr.typeError
  | Json.obj _ => Except.error PyErr.typeError

/-- The JSON mapping wrapped by an api.Task. -/
def TaskData : Type := List (String × Json)

/-- api.Task.status: `TaskStatus(self._data.get("status", 0))` with
`ValueError` and `TypeError` caught and turned into `TaskStatus(0)`. -/
def taskStatus (d : TaskData) : TaskStatus :=
  match taskStatusOfValue (dictGet d "status" (Json.num 0)) with
  | Except.ok s => s
  | Except.error _ => TaskStatus.UNKNOWN

/-- api.Task.finished: membership of the status in
CANCELED, COMPLETED, FAILED. -/
def taskFinished (d : TaskData) : Bool :=
  decide (taskStatus d = TaskStatus.CANCELED ∨ taskStatus d = TaskStatus.COMPLETED ∨
    taskStatus d = TaskStatus.FAILED)

/-- api.Task.id: direct indexing, raises `KeyError` when absent. -/
def taskId (d : TaskData) : Except PyErr Json := pyIndex d "id"

/-- api.Task.project: direct indexing, raises `KeyError` when absent. -/
def taskProject (d : TaskData) : Except PyErr Json := pyIndex d "project"

/-- api.Task.name: `self._data.get("name", "")`. -/
def taskName (d : TaskData) : Json := dictGet d "name" (Json.str "")

/-- api.Task.last_error: `self._data.get("last_error", "")`. -/
def taskLastError (d : TaskData) : Json := dictGet d "last_error" (Json.str "")

/-- api.Task.processing_node: `self._data.get("processing_node")`. -/
def taskProcessingNode (d : TaskData) : Option Json := jsonLookup d "processing_node"

/-- api.Task.processing_node_name. -/
def taskProcessingNodeName (d : TaskData) : Option Json := jsonLookup d "processing_node_name"

/-- api.Task.images_count. -/
def taskImagesCount (d : TaskData) : Option Json := jsonLookup d "images_count"

/-- api.Task.uuid. -/
def taskUuid (d : TaskData) : Option Json := jsonLookup d "uuid"

/-- api.Task.epsg. -/
def taskEpsg (d : TaskData) : Option Json := jsonLookup d "epsg"

/-- api.Task.size. -/
def taskSize (d : TaskData) : Option Json := jsonLookup d "size"

/-- api.Task.options: `odmpreset_to_dict(self._data.get("options", dict()))`,
with no exception handling around the conversion. -/
def taskOptions (d : TaskData) : Except PyErr (List (Json × Json)) :=
  odmpresetToDict (dictGet d "options" (Json.obj []))

/-- api.Task.statistics: `self._data.get("statistics", dict())`. -/
def taskStatistics (d : TaskData) : Json := dictGet d "statistics" (Json.obj [])

/-- api.Task.area: `self.statistics.get("area")` — raises
`AttributeError` when the statistics field is not a dict. -/
def taskArea (d : TaskData) : Except PyErr (Option Json) :=
  pyGetMethod (taskStatistics d) "area"

/-- api.Task.gsd: `self.statistics.get("gsd")`. -/
def taskGsd (d : TaskData) : Except PyErr (Option Json) :=
  pyGetMethod (taskStatistics d) "gsd"

/-- api.Task.points: `self.statistics.get("pointcloud", dict()).get("points")`. -/
def taskPoints (d : TaskData) : Except PyErr (Option Json) :=
  match pyGetMethodD (taskStatistics d) "pointcloud" (Json.obj []) with
  | Except.ok pc => pyGetMethod pc "points"
  | Except.error e => Except.error e

/-- api.Task.available_assets: `self._data.get("available_assets", list())`. -/
def taskAvailableAssets (d : TaskData) : Json := dictGet d "available_assets" (Json.arr [])

/-- api.Task.tags: `self._data.get("tags", list())`. -/
def taskTags (d : TaskData) : Json := dictGet d "tags" (Json.arr [])

/-- api.Task.partial: `self._data.get("partial", False)` — the raw
stored value, with no type check. -/
def taskPartialFlag (d : TaskData) : Json := dictGet d "partial" (Json.bool false)

/-- Digit run with Python numeric-literal underscores: consumes a
maximal run of digits in which single underscores may separate digit
pairs, returning the accumulated value, the number of digits consumed,
and the rest.  A leading or doubled underscore stops the run. -/
def takeDigitsUGo (acc n : Nat) : List Char → Nat × Nat × List Char
  | '_' :: c :: rest =>
      if c.isDigit then takeDigitsUGo (acc * 10 + (c.toNat - 48)) (n + 1) rest
      else (acc, n, '_' :: c :: rest)
  | c :: rest =>
      if c.isDigit then takeDigitsUGo (acc * 10 + (c.toNat - 48)) (n + 1) rest
      else (acc, n, c :: rest)
  | [] => (acc, n, [])

/-- Digit run with underscores, starting only at a digit. -/
def takeDigitsU (cs : List Char) : Nat × Nat × List Char :=
  match cs with
  | c :: _ => if c.isDigit then takeDigitsUGo 0 0 cs else (0, 0, cs)
  | [] => (0, 0, cs)

/-- ASCII whitespace stripped by Python numeric conversions. -/
def isPySpace (c : Char) : Bool :=
  c = ' ' || c = '\t' || c = '\n' || c = '\r' || c = '\x0b' || c = '\x0c'

/-- Strip Python whitespace from both ends. -/
def trimPySpace (cs : List Char) : List Char :=
  ((cs.dropWhile isPySpace).reverse.dropWhile isPySpace).reverse

/-- Python `float(s)` for finite decimal literals: optional surrounding
whitespace, optional sign, an integer part and/or a fractional part
(at least one digit between them), and an optional decimal exponent.
The special forms "inf"/"nan" and hexadecimal floats are outside the
model and never arise in any theorem below. -/
def pyFloatOfString (s : String) : Option Rat :=
  let cs := trimPySpace s.toList
  let (sign, cs) : Rat × List Char :=
    match cs with
    | '+' :: r => (1, r)
    | '-' :: r => (-1, r)
    | r => (1, r)
  let (ip, n1, cs) := takeDigitsU cs
  let (fp, n2, cs) : Nat × Nat × List Char :=
    match cs with
    | '.' :: r => takeDigitsU r
    | r => (0, 0, r)
  if n1 + n2 = 0 then none
  else
    let mantissa : Rat := sign * ((ip : Rat) + (fp : Rat) / (10 : Rat) ^ n2)
    match cs with
    | [] => some mantissa
    | e :: r =>
        if e = 'e' ∨ e = 'E' then
          let (esign, r) : Int × List Char :=
            match r with
            | '+' :: r2 => (1, r2)
            | '-' :: r2 => (-1, r2)
            | r2 => (1, r2)
          let (ev, en, rest) := takeDigitsU r
          if en ≥ 1 ∧ rest = [] then
            some (mantissa * (10 : Rat) ^ (esign * Int.ofNat ev))
          else none
        else none

/-- Python `float(v)` applied to a JSON value: numbers and booleans
convert, decimal strings parse (`ValueError` otherwise), and `None`,
lists and dicts raise `TypeError`. -/
def pyFloat : Json → Except PyErr Rat
  | Json.num q => Except.ok q
  | Json.bool b => Except.ok (if b then 1 else 0)
  | Json.str s =>
      match pyFloatOfString s with
      | some q => Except.ok q
      | none => Except.error PyErr.valueError
  | Json.null => Except.error PyErr.typeError
  | Json.arr _ => Except.error PyErr.typeError
  | Json.obj _ => Except.error PyErr.typeError

/-- api.Task.upload_progress: `float(self._data.get("upload_progress", 0))`
with no exception handling. -/
def taskUploadProgress (d : TaskData) : Except PyErr Rat :=
  pyFloat (dictGet d "upload_progress" (Json.num 0))

/-- api.Task.resize_progress. -/
def taskResizeProgress (d : TaskData) : Except PyErr Rat :=
  pyFloat (dictGet d "resize_progress" (Json.num 0))

/-- api.Task.running_progress. -/
def taskRunningProgress (d : TaskData) : Except PyErr Rat :=
  pyFloat (dictGet d "running_progress" (Json.num 0))

/-- Python `timedelta(milliseconds=v)`: accepts numbers and booleans,
raises `TypeError` on any other value.  The resulting duration is
modelled as its length in milliseconds. -/
def pyTimedeltaMs : Json → Except PyErr Rat
  | Json.num q => Except.ok q
  | Json.bool b => Except.ok (if b then 1 else 0)
  | _ => Except.error PyErr.typeError

/-- api.Task.processing_time:
`timedelta(milliseconds=self._data.get("processing_time", 0))` with
`ValueError` and `TypeError` caught and turned into a zero duration. -/
def taskProcessingTime (d : TaskData) : Rat :=
  match pyTimedeltaMs (dictGet d "processing_time" (Json.num 0)) with
  | Except.ok q => q
  | Except.error _ => 0

/-- A Python `datetime` as produced by `strptime` on the client's fixed
format: calendar fields plus whether `tzinfo` is `timezone.utc` (the
value `strptime` itself returns is naive, `utc = false`; the client's
`.replace(tzinfo=timezone.utc)` sets `utc = true`). -/
structure PyDatetime where
  year : Nat
  month : Nat
  day : Nat
  hour : Nat
  minute : Nat
  second : Nat
  microsecond : Nat
  utc : Bool
deriving DecidableEq

/-- Maximal digit run and remainder. -/
def splitDigits (cs : List Char) : List Char × List Char :=
  (cs.takeWhile Char.isDigit, cs.dropWhile Char.isDigit)

/-- Value of a digit run. -/
def digitsToNat (ds : List Char) : Nat :=
  ds.foldl (fun a c => a * 10 + (c.toNat - 48)) 0

/-- One numeric field of CPython's `_strptime` for the two-digit
directives: the regular expressions behind %m, %d, %H, %M and %S all
accept one digit (at least `minVal`) or two digits with value between
`minVal` and `maxTwo`, and reject longer runs (the following literal
separator is not a digit). -/
def parseNumField (maxTwo minVal : Nat) (cs : List Char) : Option (Nat × List Char) :=
  let (ds, rest) := splitDigits cs
  match ds.length with
  | 1 => let v := digitsToNat ds; if minVal ≤ v then some (v, rest) else none
  | 2 => let v := digitsToNat ds; if minVal ≤ v ∧ v ≤ maxTwo then some (v, rest) else none
  | _ => none

/-- The %Y directive: exactly four digits. -/
def parseYear4 (cs : List Char) : Option (Nat × List Char) :=
  let (ds, rest) := splitDigits cs
  if ds.length = 4 then some (digitsToNat ds, rest) else none

/-- The %f directive: one to six digits, zero-padded on the right to
microseconds. -/
def parseFrac (cs : List Char) : Option (Nat × List Char) :=
  let (ds, rest) := splitDigits cs
  if 1 ≤ ds.length ∧ ds.length ≤ 6 then
    some (digitsToNat ds * 10 ^ (6 - ds.length), rest)
  else none

/-- One literal character of the format; CPython compiles the format
with `re.IGNORECASE`, so letters match case-insensitively. -/
def eatLit (c : Char) (cs : List Char) : Option (List Char) :=
  match cs with
  | x :: rest => if x.toLower = c.toLower then some rest else none
  | [] => none

/-- Whether `y` is a Gregorian leap year. -/
def isLeapYear (y : Nat) : Bool :=
  y % 4 = 0 && (y % 100 ≠ 0 || y % 400 = 0)

/-- Days in a month of the Gregorian calendar (month already 1–12). -/
def daysInMonth (y m : Nat) : Nat :=
  if m = 2 then (if isLeapYear y then 29 else 28)
  else if m = 4 ∨ m = 6 ∨ m = 9 ∨ m = 11 then 30
  else 31

/-- Python `datetime.strptime(s, "%Y-%m-%dT%H:%M:%S.%fZ")`, modelled
after CPython's `_strptime`: each directive matches per its regular
expression (one- or two-digit month/day/hour/minute/second, four-digit
year, one- to six-digit fraction), literals match case-insensitively,
the whole string must be consumed, and the final `datetime` constructor
rejects day numbers beyond the month's length, leap seconds (60, 61)
and year 0.  Failure (`ValueError`/`TypeError` in Python) is `none`. -/
def strptimeIsoMs (s : String) : Option PyDatetime := do
  let cs := s.toList
  let (y, cs) ← parseYear4 cs
  let cs ← eatLit '-' cs
  let (mo, cs) ← parseNumField 12 1 cs
  let cs ← eatLit '-' cs
  let (d, cs) ← parseNumField 31 1 cs
  let cs ← eatLit 'T' cs
  let (h, cs) ← parseNumField 23 0 cs
  let cs ← eatLit ':' cs
  let (mi, cs) ← parseNumField 59 0 cs
  let cs ← eatLit ':' cs
  let (sec, cs) ← parseNumField 61 0 cs
  let cs ← eatLit '.' cs
  let (us, cs) ← parseFrac cs
  let cs ← eatLit 'Z' cs
  if cs = [] ∧ 1 ≤ y ∧ d ≤ daysInMonth y mo ∧ sec ≤ 59 then
    some ⟨y, mo, d, h, mi, sec, us, false⟩
  else none

/-- api.Task.date: `datetime.strptime(self._data.get("created_at"), fmt)`
followed by `.replace(tzinfo=timezone.utc)`, with `ValueError` and
`TypeError` caught and turned into `None`; a missing field or a
non-string value makes `strptime` raise `TypeError`, hence `None`. -/
def taskDate (d : TaskData) : Option PyDatetime :=
  match jsonLookup d "created_at" with
  | some (Json.str s) =>
      match strptimeIsoMs s with
      | some dt => some { dt with utc := true }
      | none => none
  | _ => none

/-- The JSON mapping wrapped by an api.Project. -/
def ProjectData : Type := List (String × Json)

/-- api.Project.id: direct indexing, raises `KeyError` when absent. -/
def projectId (d : ProjectData) : Except PyErr Json := pyIndex d "id"

/-- api.Project.name: direct indexing, raises `KeyError` when absent. -/
def projectName (d : ProjectData) : Except PyErr Json := pyIndex d "name"

/-- api.Project.description: `self._data.get("description")`. -/
def projectDescription (d : ProjectData) : Option Json := jsonLookup d "description"

/-- api.Project.date: the same parse-and-default rule as api.Task.date. -/
def projectDate (d : ProjectData) : Option PyDatetime :=
  match jsonLookup d "created_at" with
  | some (Json.str s) =>
      match strptimeIsoMs s with
      | some dt => some { dt with utc := true }
      | none => none
  | _ => none

/-- api.Project.task_list: direct indexing of the "tasks" field. -/
def projectTaskList (d : ProjectData) : Except PyErr Json := pyIndex d "tasks"

/-- api.Project.task_count: `len(self._data\x5b"tasks"\x5d)`. -/
def projectTaskCount (d : ProjectData) : Except PyErr Nat :=
  match pyIndex d "tasks" with
  | Except.ok v => pyLen v
  | Except.error e => Except.error e

/-- api.Project.tasks: the generator over `self._data\x5b"tasks"\x5d`,
modelled as the list of values it yields once iterated. -/
def projectTasksIter (d : ProjectData) : Except PyErr (List Json) :=
  match pyIndex d "tasks" with
  | Except.ok v => pyIterate v
  | Except.error e => Except.error e

/-- api.Project.can_add: `"add" in self._data\x5b"permissions"\x5d`. -/
def projectCanAdd (d : ProjectData) : Except PyErr Bool :=
  match pyIndex d "permissions" with
  | Except.ok v => pyContains v (Json.str "add")
  | Except.error e => Except.error e

/-- api.Project.can_delete. -/
def projectCanDelete (d : ProjectData) : Except PyErr Bool :=
  match pyIndex d "permissions" with
  | Except.ok v => pyContains v (Json.str "delete")
  | Except.error e => Except.error e

/-- api.Project.can_change. -/
def projectCanChange (d : ProjectData) : Except PyErr Bool :=
  match pyIndex d "permissions" with
  | Except.ok v => pyContains v (Json.str "change")
  | Except.error e => Except.error e

/-- api.Project.can_view. -/
def projectCanView (d : ProjectData) : Except PyErr Bool :=
  match pyIndex d "permissions" with
  | Except.ok v => pyContains v (Json.str "view")
  | Except.error e => Except.error e

/-- An HTTP response as the client observes it: the status code and the
JSON value `res.json()` would produce.  (Transport-level faults are out
of scope; the spec leaves them propagating unhandled.) -/
structure HttpResponse where
  status : Nat
  body : Json

/-- The mutable connection state of api.WebODM relevant to token
handling: the cached token (`self._token`, initially the empty string,
afterwards whatever the auth endpoint returned), the configured TTL in
seconds (`self._token_expiration`) and the acquisition timestamp
(`self._token_datetime`).  Wall-clock instants are modelled as integer
seconds. -/
structure ClientState where
  token : Json
  tokenExpiration : Int
  tokenDatetime : Int

/-- api.WebODM.token_refresh: POSTs the credentials; on HTTP 200 stores
`res.json()["token"]` and resets the acquisition timestamp, otherwise
leaves the state unchanged; returns the (possibly unchanged) token.
The response of the single POST it issues is passed in as `res`; a 200
body without a "token" field raises `KeyError`. -/
def tokenRefresh (st : ClientState) (now : Int) (res : HttpResponse) :
    Except PyErr (Json × ClientState) :=
  if res.status = 200 then
    match pySubscriptStr res.body "token" with
    | Except.ok t => Except.ok (t, { st with token := t, tokenDatetime := now })
    | Except.error e => Except.error e
  else Except.ok (st.token, st)

/-- api.WebODM.token: returns the cached token when its age is strictly
below the TTL and it is truthy, otherwise calls `token_refresh` once.
The final component counts the refresh requests issued (0 or 1);
`res` is the response the refresh request would receive. -/
def tokenAccess (st : ClientState) (now : Int) (res : HttpResponse) :
    Except PyErr (Json × ClientState × Nat) :=
  if now - st.tokenDatetime < st.tokenExpiration ∧ pyTruthy st.token = true then
    Except.ok (st.token, st, 0)
  else
    match tokenRefresh st now res with
    | Except.ok (t, st2) => Except.ok (t, st2, 1)
    | Except.error e => Except.error e

/-- api.WebODM.delete_project: true exactly on HTTP 204. -/
def deleteProject (res : HttpResponse) : Bool :=
  res.status = 204

/-- api.WebODM.delete_task: on HTTP 200 returns `res.json()["success"]`
(whatever value that is, `KeyError` when absent), otherwise `False`. -/
def deleteTask (res : HttpResponse) : Except PyErr Json :=
  if res.status = 200 then pySubscriptStr res.body "success"
  else Except.ok (Json.bool false)

/-- Modelled from the spec: the fixed ISO-8601-with-milliseconds shape
of the specification's example "2023-05-01T10:15:30.123456Z" — four
digits, dash, two digits, dash, two digits, a literal T, three
colon-separated two-digit fields, a dot, six digits and a literal Z.
Used only to compare the spec's wording against the lenient behaviour
of the embedded strptime. -/
def isCanonicalIsoMs (s : String) : Bool :=
  match s.toList with
  | [y1, y2, y3, y4, '-', m1, m2, '-', d1, d2, 'T',
     h1, h2, ':', n1, n2, ':', s1, s2, '.', f1, f2, f3, f4, f5, f6, 'Z'] =>
      [y1, y2, y3, y4, m1, m2, d1, d2, h1, h2, n1, n2, s1, s2,
        f1, f2, f3, f4, f5, f6].all Char.isDigit
  | _ => false

/-- Equality of string atoms under the JSON equality. -/
theorem jsonBeq_str (a b : String) : Json.beq (Json.str a) (Json.str b) = (a == b) := by
  simp [Json.beq]

/-- Inserting a key absent from a Python dict appends the pair. -/
theorem pyDictInsert_fresh (acc : List (Json × Json)) (k v : Json)
    (h : ∀ kv ∈ acc, Json.beq kv.1 k = false) :
    pyDictInsert acc k v = acc ++ [(k, v)] := by
  induction acc with
  | nil => rfl
  | cons kv rest ih =>
      obtain ⟨k0, v0⟩ := kv
      have hk : Json.beq k0 k = false := h (k0, v0) (List.mem_cons_self _ _)
      simp [pyDictInsert, hk]
      exact ih (fun kv hkv => h kv (List.mem_cons_of_mem _ hkv))

/-- Binding a successful Except computation applies the continuation. -/
theorem exceptOkBind {α β : Type} (a : α) (f : α → Except PyErr β) :
    (Except.ok a >>= f) = f a := rfl

/-- The comprehension loop of utils.odmpreset_to_dict on well-formed
records with pairwise distinct names appends one pair per record. -/
theorem odmItems_zip (names : List String) :
    ∀ (vals : List Json) (acc : List (Json × Json)),
    names.length = vals.length → names.Nodup →
    (∀ n ∈ names, ∀ kv ∈ acc, Json.beq kv.1 (Json.str n) = false) →
    List.foldlM odmStep acc
        (List.zipWith (fun n v => Json.obj [("name", Json.str n), ("value", v)]) names vals)
      = Except.ok (acc ++ List.zipWith (fun n v => (Json.str n, v)) names vals) := by
  induction names with
  | nil =>
      intro vals acc _ _ _
      simp only [List.zipWith_nil_left, List.foldlM_nil, List.append_nil]
      rfl
  | cons n ns ih =>
      intro vals acc hlen hnd hfresh
      cases vals with
      | nil => simp at hlen
      | cons v vs =>
          have hins := pyDictInsert_fresh acc (Json.str n) v
            (hfresh n (List.mem_cons_self _ _))
          have hstep : odmStep acc (Json.obj [("name", Json.str n), ("value", v)])
              = Except.ok (pyDictInsert acc (Json.str n) v) := rfl
          rw [List.zipWith_cons_cons, List.foldlM_cons, hstep, hins, exceptOkBind]
          have hnd2 := (List.nodup_cons.mp hnd).2
          have hnmem := (List.nodup_cons.mp hnd).1
          have hfresh2 : ∀ m ∈ ns, ∀ kv ∈ acc ++ [(Json.str n, v)],
              Json.beq kv.1 (Json.str m) = false := by
            intro m hm kv hkv
            rcases List.mem_append.mp hkv with hacc | hone
            · exact hfresh m (List.mem_cons_of_mem _ hm) kv hacc
            · have : kv = (Json.str n, v) := List.mem_singleton.mp hone
              subst this
              have hne : n ≠ m := fun he => hnmem (he ▸ hm)
              simp [jsonBeq_str]
              exact hne
          have := ih vs (acc ++ [(Json.str n, v)]) (by simpa using hlen) hnd2 hfresh2
          simpa [List.append_assoc] using this

/-- Claim C1: for every JSON mapping wrapped by a Task, the derived
accessor `finished` is true exactly when `status` yields CANCELED,
COMPLETED or FAILED, and false for every other status value. -/
theorem c1_finished_iff_terminal_status (d : TaskData) :
    (taskFinished d = true ↔
      (taskStatus d = TaskStatus.CANCELED ∨ taskStatus d = TaskStatus.COMPLETED ∨
        taskStatus d = TaskStatus.FAILED)) ∧
    (taskFinished d = false ↔
      ¬(taskStatus d = TaskStatus.CANCELED ∨ taskStatus d = TaskStatus.COMPLETED ∨
        taskStatus d = TaskStatus.FAILED)) := by
  constructor
  · simp [taskFinished]
  · simp [taskFinished]

/-- Claim C2: the `status` accessor maps each known integer code to the
matching enumeration member and yields the UNKNOWN fallback, without
raising, for a missing field or for any value that is not a known
code. -/
theorem c2_status_known_codes_and_fallback (d : TaskData) :
    (∀ s : TaskStatus, jsonLookup d "status" = some (Json.num (s.code : Rat)) →
        taskStatus d = s) ∧
    (jsonLookup d "status" = none → taskStatus d = TaskStatus.UNKNOWN) ∧
    (∀ v, jsonLookup d "status" = some v →
        (∀ q : Rat, v = Json.num q →
          ¬(q = 0 ∨ q = 10 ∨ q = 20 ∨ q = 30 ∨ q = 40 ∨ q = 50)) →
        taskStatus d = TaskStatus.UNKNOWN) := by
  refine ⟨?_, ?_, ?_⟩
  · intro s h
    cases s <;> norm_num [taskStatus, dictGet, h, taskStatusOfValue, TaskStatus.code]
  · intro h
    simp [taskStatus, dictGet, h, taskStatusOfValue]
  · intro v h hv
    cases v with
    | null => simp [taskStatus, dictGet, h, taskStatusOfValue]
    | bool b => cases b <;> simp [taskStatus, dictGet, h, taskStatusOfValue]
    | num q =>
        have hq := hv q rfl
        push_neg at hq
        obtain ⟨h0, h10, h20, h30, h40, h50⟩ := hq
        simp [taskStatus, dictGet, h, taskStatusOfValue, h0, h10, h20, h30, h40, h50]
    | str s => simp [taskStatus, dictGet, h, taskStatusOfValue]
    | arr xs => simp [taskStatus, dictGet, h, taskStatusOfValue]
    | obj fields => simp [taskStatus, dictGet, h, taskStatusOfValue]

/-- Witness for C2 at concrete inputs: code 40 parses to COMPLETED, a
missing field and a string value fall back to UNKNOWN. -/
theorem c2_witness :
    taskStatus [("status", Json.num 40)] = TaskStatus.COMPLETED ∧
    taskStatus [] = TaskStatus.UNKNOWN ∧
    taskStatus [("status", Json.str "boom")] = TaskStatus.UNKNOWN := by
  refine ⟨?_, ?_, ?_⟩
  · exact (c2_status_known_codes_and_fallback [("status", Json.num 40)]).1
      TaskStatus.COMPLETED (by norm_num [jsonLookup, TaskStatus.code])
  · exact (c2_status_known_codes_and_fallback []).2.1 rfl
  · exact (c2_status_known_codes_and_fallback [("status", Json.str "boom")]).2.2
      (Json.str "boom") (by simp [jsonLookup]) (fun q hq => Json.noConfusion hq)

/-- Claim C7: `delete_project` answers true exactly on HTTP 204; a 403
response yields false. -/
theorem c7_delete_project_iff_204 (res : HttpResponse) :
    (deleteProject res = true ↔ res.status = 204) ∧
    deleteProject ⟨403, Json.null⟩ = false := by
  constructor
  · simp [deleteProject]
  · rfl

/-- Claim C9: `odmpreset_to_dict` on a list of name/value records with
pairwise distinct names returns the dict pairing each name with its
value; in particular a single record with name "x" and value 1 yields
the singleton dict. -/
theorem c9_odmpreset_to_dict (names : List String) (vals : List Json)
    (hlen : names.length = vals.length) (hnd : names.Nodup) :
    odmpresetToDict (Json.arr (List.zipWith (fun n v =>
        Json.obj [("name", Json.str n), ("value", v)]) names vals))
      = Except.ok (List.zipWith (fun n v => (Json.str n, v)) names vals) ∧
    odmpresetToDict (Json.arr [Json.obj [("name", Json.str "x"), ("value", Json.num 1)]])
      = Except.ok [(Json.str "x", Json.num 1)] := by
  constructor
  · have := odmItems_zip names vals [] hlen hnd (by simp)
    simpa [odmpresetToDict, pyIterate, odmItems] using this
  · rfl

/-- Witness for C9: the spec's own example, derived from the general
statement at names = x, vals = 1. -/
theorem c9_witness :
    odmpresetToDict (Json.arr [Json.obj [("name", Json.str "x"), ("value", Json.num 1)]])
      = Except.ok [(Json.str "x", Json.num 1)] := by
  have := (c9_odmpreset_to_dict ["x"] [Json.num 1] rfl (by simp)).1
  simpa using this

/-- Claim C10: the Project accessors that read with direct indexing
(`id`, `name`, `task_list`, `task_count`, `tasks()`, the four
permission flags) raise `KeyError` when their field is absent, as do
Task's `id` and `project`. -/
theorem c10_direct_indexing_raises (d : List (String × Json)) :
    (jsonLookup d "id" = none →
        projectId d = Except.error (PyErr.keyError "id") ∧
        taskId d = Except.error (PyErr.keyError "id")) ∧
    (jsonLookup d "name" = none →
        projectName d = Except.error (PyErr.keyError "name")) ∧
    (jsonLookup d "tasks" = none →
        projectTaskList d = Except.error (PyErr.keyError "tasks") ∧
        projectTaskCount d = Except.error (PyErr.keyError "tasks") ∧
        projectTasksIter d = Except.error (PyErr.keyError "tasks")) ∧
    (jsonLookup d "permissions" = none →
        projectCanAdd d = Except.error (PyErr.keyError "permissions") ∧
        projectCanDelete d = Except.error (PyErr.keyError "permissions") ∧
        projectCanChange d = Except.error (PyErr.keyError "permissions") ∧
        projectCanView d = Except.error (PyErr.keyError "permissions")) ∧
    (jsonLookup d "project" = none →
        taskProject d = Except.error (PyErr.keyError "project")) := by
  refine ⟨?_, ?_, ?_, ?_, ?_⟩
  · intro h
    exact ⟨by simp [projectId, pyIndex, h], by simp [taskId, pyIndex, h]⟩
  · intro h
    simp [projectName, pyIndex, h]
  · intro h
    exact ⟨by simp [projectTaskList, pyIndex, h],
      by simp [projectTaskCount, pyIndex, h],
      by simp [projectTasksIter, pyIndex, h]⟩
  · intro h
    exact ⟨by simp [projectCanAdd, pyIndex, h], by simp [projectCanDelete, pyIndex, h],
      by simp [projectCanChange, pyIndex, h], by simp [projectCanView, pyIndex, h]⟩
  · intro h
    simp [taskProject, pyIndex, h]

/-- Witness for C10 at the empty mapping. -/
theorem c10_witness :
    projectId [] = Except.error (PyErr.keyError "id") ∧
    projectCanView [] = Except.error (PyErr.keyError "permissions") := by
  exact ⟨((c10_direct_indexing_raises []).1 rfl).1,
    ((c10_direct_indexing_raises []).2.2.2.1 rfl).2.2.2⟩

/-- Claim C3, amended: a `token` access returns the cached token without
issuing any request exactly when the token is truthy and its age is
STRICTLY below the TTL; otherwise (empty token, or age greater than or
equal to the TTL) it performs exactly one `token_refresh`.  With
TTL 21600 an access 100 seconds after acquisition is served from the
cache and an access 21601 seconds after acquisition performs exactly
one refresh. -/
theorem c3_token_cached_or_single_refresh (st : ClientState) (now : Int) (res : HttpResponse) :
    (now - st.tokenDatetime < st.tokenExpiration ∧ pyTruthy st.token = true →
        tokenAccess st now res = Except.ok (st.token, st, 0)) ∧
    (¬(now - st.tokenDatetime < st.tokenExpiration ∧ pyTruthy st.token = true) →
        tokenAccess st now res = (tokenRefresh st now res).map (fun p => (p.1, p.2, 1))) ∧
    (∀ t0 : Int, tokenAccess ⟨Json.str "tok", 21600, t0⟩ (t0 + 100) res
        = Except.ok (Json.str "tok", ⟨Json.str "tok", 21600, t0⟩, 0)) ∧
    (∀ t0 : Int, tokenAccess ⟨Json.str "tok", 21600, t0⟩ (t0 + 21601)
          ⟨200, Json.obj [("token", Json.str "fresh")]⟩
        = Except.ok (Json.str "fresh", ⟨Json.str "fresh", 21600, t0 + 21601⟩, 1)) := by
  refine ⟨?_, ?_, ?_, ?_⟩
  · intro h
    unfold tokenAccess
    rw [if_pos h]
  · intro h
    unfold tokenAccess
    rw [if_neg h]
    cases htr : tokenRefresh st now res with
    | ok p => obtain ⟨t, st2⟩ := p; rfl
    | error e => rfl
  · intro t0
    have h1 : t0 + 100 - t0 < (21600 : Int) := by omega
    unfold tokenAccess
    rw [if_pos ⟨h1, rfl⟩]
  · intro t0
    have h1 : ¬(t0 + 21601 - t0 < (21600 : Int)) := by omega
    unfold tokenAccess
    rw [if_neg (fun h => absurd h.1 h1)]
    rfl

/-- Witness for C3: a fresh truthy token accessed 100 seconds after
acquisition with TTL 21600 is returned from the cache. -/
theorem c3_witness :
    tokenAccess ⟨Json.str "t", 21600, 0⟩ 100 ⟨404, Json.null⟩
      = Except.ok (Json.str "t", ⟨Json.str "t", 21600, 0⟩, 0) :=
  (c3_token_cached_or_single_refresh ⟨Json.str "t", 21600, 0⟩ 100 ⟨404, Json.null⟩).1
    ⟨by norm_num, by decide⟩

/-- Claim C3, counterexample: at age exactly equal to the TTL the cached
token is truthy and is NOT older than the TTL, yet the access performs
a refresh rather than returning the cached value (the code compares
with a strict inequality). -/
theorem c3_counterexample_exact_ttl :
    pyTruthy (Json.str "tok") = true ∧
    ¬((21600 : Int) - 0 > 21600) ∧
    tokenAccess ⟨Json.str "tok", 21600, 0⟩ 21600 ⟨200, Json.obj [("token", Json.str "fresh")]⟩
      = Except.ok (Json.str "fresh", ⟨Json.str "fresh", 21600, 21600⟩, 1) := by
  have h1 : ¬((21600 : Int) - 0 < 21600) := by norm_num
  refine ⟨by decide, by norm_num, ?_⟩
  unfold tokenAccess
  rw [if_neg (fun h => absurd h.1 h1)]
  rfl

/-- Claim C4, counterexample: a present but malformed (null) value of
upload_progress makes the accessor raise `TypeError` (Python evaluates
`float(None)` with no exception handler) instead of returning the
default 0.0. -/
theorem c4_counterexample_upload_progress_raises :
    jsonLookup [("upload_progress", Json.null)] "upload_progress" = some Json.null ∧
    taskUploadProgress [("upload_progress", Json.null)] = Except.error PyErr.typeError :=
  ⟨rfl, rfl⟩

/-- Claim C4, amended: every accessor that reads through `.get` returns
its documented default, without raising, when its field is MISSING; a
malformed present value, however, can raise (upload/resize/running
progress, options, area/gsd/points) or be returned unchecked (partial);
and a value in one field never affects an accessor of another field. -/
theorem c4_missing_fields_default (d : List (String × Json)) :
    (jsonLookup d "name" = none → taskName d = Json.str "") ∧
    (jsonLookup d "upload_progress" = none → taskUploadProgress d = Except.ok 0) ∧
    (jsonLookup d "created_at" = none → taskDate d = none ∧ projectDate d = none) ∧
    (jsonLookup d "last_error" = none → taskLastError d = Json.str "") ∧
    (jsonLookup d "processing_node" = none → taskProcessingNode d = none) ∧
    (jsonLookup d "processing_node_name" = none → taskProcessingNodeName d = none) ∧
    (jsonLookup d "images_count" = none → taskImagesCount d = none) ∧
    (jsonLookup d "uuid" = none → taskUuid d = none) ∧
    (jsonLookup d "epsg" = none → taskEpsg d = none) ∧
    (jsonLookup d "size" = none → taskSize d = none) ∧
    (jsonLookup d "status" = none → taskStatus d = TaskStatus.UNKNOWN) ∧
    (jsonLookup d "processing_time" = none → taskProcessingTime d = 0) ∧
    (jsonLookup d "options" = none → taskOptions d = Except.ok []) ∧
    (jsonLookup d "statistics" = none → taskStatistics d = Json.obj [] ∧
        taskArea d = Except.ok none ∧ taskGsd d = Except.ok none ∧
        taskPoints d = Except.ok none) ∧
    (jsonLookup d "available_assets" = none → taskAvailableAssets d = Json.arr []) ∧
    (jsonLookup d "tags" = none → taskTags d = Json.arr []) ∧
    (jsonLookup d "partial" = none → taskPartialFlag d = Json.bool false) ∧
    (jsonLookup d "resize_progress" = none → taskResizeProgress d = Except.ok 0) ∧
    (jsonLookup d "running_progress" = none → taskRunningProgress d = Except.ok 0) ∧
    (jsonLookup d "description" = none → projectDescription d = none) ∧
    (∀ v, taskName (("upload_progress", v) :: d) = taskName d ∧
        taskStatus (("upload_progress", v) :: d) = taskStatus d) := by
  refine ⟨?_, ?_, ?_, ?_, ?_, ?_, ?_, ?_, ?_, ?_, ?_, ?_, ?_, ?_, ?_, ?_, ?_, ?_, ?_, ?_, ?_⟩
  · intro h; simp [taskName, dictGet, h]
  · intro h; simp [taskUploadProgress, dictGet, h, pyFloat]
  · intro h; exact ⟨by simp [taskDate, h], by simp [projectDate, h]⟩
  · intro h; simp [taskLastError, dictGet, h]
  · intro h; simpa [taskProcessingNode] using h
  · intro h; simpa [taskProcessingNodeName] using h
  · intro h; simpa [taskImagesCount] using h
  · intro h; simpa [taskUuid] using h
  · intro h; simpa [taskEpsg] using h
  · intro h; simpa [taskSize] using h
  · intro h; simp [taskStatus, dictGet, h, taskStatusOfValue]
  · intro h; simp [taskProcessingTime, dictGet, h, pyTimedeltaMs]
  · intro h; simp [taskOptions, dictGet, h]; rfl
  · intro h
    refine ⟨by simp [taskStatistics, dictGet, h], ?_, ?_, ?_⟩
    · simp [taskArea, taskStatistics, dictGet, h, pyGetMethod, jsonLookup]
    · simp [taskGsd, taskStatistics, dictGet, h, pyGetMethod, jsonLookup]
    · simp [taskPoints, taskStatistics, dictGet, h, pyGetMethod, pyGetMethodD, jsonLookup]
  · intro h; simp [taskAvailableAssets, dictGet, h]
  · intro h; simp [taskTags, dictGet, h]
  · intro h; simp [taskPartialFlag, dictGet, h]
  · intro h; simp [taskResizeProgress, dictGet, h, pyFloat]
  · intro h; simp [taskRunningProgress, dictGet, h, pyFloat]
  · intro h; simpa [projectDescription] using h
  · intro v
    constructor
    · simp [taskName, dictGet, jsonLookup]
    · simp [taskStatus, dictGet, jsonLookup]

/-- Witness for C4 at the empty mapping: name defaults to the empty
string, upload progress to 0.0, the timestamp to null. -/
theorem c4_witness :
    taskName [] = Json.str "" ∧ taskUploadProgress [] = Except.ok 0 ∧
    taskDate [] = none := by
  refine ⟨(c4_missing_fields_default []).1 rfl, (c4_missing_fields_default []).2.1 rfl,
    ((c4_missing_fields_default []).2.2.1 rfl).1⟩

/-- Claim C5, counterexample: the string "2023-5-01T10:15:30.123456Z"
deviates from the fixed ISO-8601-with-milliseconds shape (one-digit
month), yet the accessor parses it (strptime accepts one- or two-digit
fields) instead of yielding null. -/
theorem c5_counterexample_lenient_month :
    isCanonicalIsoMs "2023-5-01T10:15:30.123456Z" = false ∧
    taskDate [("created_at", Json.str "2023-5-01T10:15:30.123456Z")]
      = some ⟨2023, 5, 1, 10, 15, 30, 123456, true⟩ :=
  ⟨rfl, rfl⟩

/-- Claim C5, amended: the `date` accessor of Task and Project parses
the `created_at` string with strptime on the fixed format (which also
accepts the format's lenient variants: one- or two-digit
month/day/hour/minute/second, one- to six-digit fraction,
case-insensitive literals) into a timezone-aware UTC instant equal to
the literal value, and yields null, never an exception, when the field
is missing, not a string, or rejected by strptime. -/
theorem c5_date_parse_characterization (d : List (String × Json)) :
    (∀ s, jsonLookup d "created_at" = some (Json.str s) →
        taskDate d = (strptimeIsoMs s).map (fun dt => { dt with utc := true })) ∧
    (jsonLookup d "created_at" = none → taskDate d = none) ∧
    (∀ v, jsonLookup d "created_at" = some v → (∀ s, v ≠ Json.str s) → taskDate d = none) ∧
    projectDate d = taskDate d ∧
    taskDate [("created_at", Json.str "2023-05-01T10:15:30.123456Z")]
      = some ⟨2023, 5, 1, 10, 15, 30, 123456, true⟩ ∧
    (strptimeIsoMs "2023-05-01T10:15:30.123456Z").map (fun dt => dt.utc) = some false ∧
    taskDate [("created_at", Json.str "2023-05-01T10:15:30Z")] = none ∧
    taskDate [("created_at", Json.str "not a date")] = none ∧
    taskDate [("created_at", Json.num 5)] = none := by
  refine ⟨?_, ?_, ?_, rfl, rfl, rfl, rfl, rfl, rfl⟩
  · intro s h
    simp only [taskDate, h]
    cases strptimeIsoMs s <;> simp
  · intro h
    simp [taskDate, h]
  · intro v h hv
    cases v with
    | str s => exact absurd rfl (hv s)
    | null => simp [taskDate, h]
    | bool b => simp [taskDate, h]
    | num q => simp [taskDate, h]
    | arr xs => simp [taskDate, h]
    | obj fields => simp [taskDate, h]

/-- Witness for C5: the canonical timestamp is parsed through strptime
and marked UTC. -/
theorem c5_witness :
    taskDate [("created_at", Json.str "2023-05-01T10:15:30.123456Z")]
      = (strptimeIsoMs "2023-05-01T10:15:30.123456Z").map (fun dt => { dt with utc := true }) :=
  (c5_date_parse_characterization [("created_at", Json.str "2023-05-01T10:15:30.123456Z")]).1
    "2023-05-01T10:15:30.123456Z" rfl

/-- Claim C8, counterexample: a 200 response whose body carries the
`success` flag with value false yields false, not true. -/
theorem c8_counterexample_success_false :
    jsonLookup [("success", Json.bool false)] "success" = some (Json.bool false) ∧
    deleteTask ⟨200, Json.obj [("success", Json.bool false)]⟩ = Except.ok (Json.bool false) ∧
    (Except.ok (Json.bool false) : Except PyErr Json) ≠ Except.ok (Json.bool true) := by
  refine ⟨rfl, rfl, ?_⟩
  intro h
  exact Bool.noConfusion (Json.bool.inj (Except.ok.inj h))

/-- Claim C8, amended: on HTTP 200 `delete_task` returns the value of
the body's `success` field, raising `KeyError` when the field is
absent; any non-200 status returns false without raising. -/
theorem c8_delete_task_characterization (res : HttpResponse) :
    (res.status = 200 → deleteTask res = pySubscriptStr res.body "success") ∧
    (res.status ≠ 200 → deleteTask res = Except.ok (Json.bool false)) ∧
    deleteTask ⟨200, Json.obj []⟩ = Except.error (PyErr.keyError "success") := by
  refine ⟨?_, ?_, rfl⟩
  · intro h
    unfold deleteTask
    rw [if_pos h]
  · intro h
    unfold deleteTask
    rw [if_neg h]

/-- Witness for C8: a 403 response yields false. -/
theorem c8_witness :
    deleteTask ⟨403, Json.null⟩ = Except.ok (Json.bool false) :=
  (c8_delete_task_characterization ⟨403, Json.null⟩).2.1 (by norm_num)

/-- Witness for C1: status code 50 (CANCELED) makes `finished` true. -/
theorem c1_witness :
    taskFinished [("status", Json.num 50)] = true :=
  (c1_finished_iff_terminal_status [("status", Json.num 50)]).1.mpr (Or.inl rfl)

/-- Witness for C7: a 204 response makes `delete_project` true. -/
theorem c7_witness :
    deleteProject ⟨204, Json.null⟩ = true :=
  (c7_delete_project_iff_204 ⟨204, Json.null⟩).1.mpr rfl
